import Mathlib

/-
Verification of arknights_mower/utils/solver.py (class BaseSolver).

The solver is shallowly embedded: pure helpers (get_pos, swipe_noinertia)
become pure Lean functions on Int/ℚ; the retry loop run() becomes a
fuel-indexed recursion over an abstract sequence of body outcomes; the
stateful navigation procedures (login, get_navigation, back_to_index)
become explicit state-passing functions over an observation environment,
where the device-action trace and the perception epoch are threaded through
an explicit state.  Python float anchor weights are modelled as rationals
(the weights appearing in the code and the claims, 0.5 and 0.8, are exact
binary floats, so float rounding is not observable at them), and Python
int() truncation toward zero is modelled by pyInt.
-/

/-- Python int() applied to a rational: truncation toward zero. -/
def pyInt (q : ℚ) : Int := if q < 0 then ⌈q⌉ else ⌊q⌋

/-- Exceptions relevant to solver.py: RecognizeError (transient),
StrategyError (terminal), any other exception (a defect, re-raised), and a
fuel marker used by the embedding of the unbounded while loops. -/
inductive Err
  | recog
  | strat
  | other
  | fuelOut
  deriving DecidableEq

/-- tp.Location: a Coordinate (x, y), a Scope (two corner points) or a
Rectangle (four corner points).  The source dispatches on None and on the
length of the tuple; the three length classes are the three constructors
here, and absence (None) is Option.none at use sites. -/
inductive Loc
  | coord : Int × Int → Loc
  | scope : Int × Int → Int × Int → Loc
  | rect : Int × Int → Int × Int → Int × Int → Int × Int → Loc
  deriving DecidableEq

/-- BaseSolver.get_pos (solver.py lines 62-79): None raises RecognizeError;
a 4-point location uses the paired blend; a 2-point scope uses per-axis
linear interpolation; a bare coordinate is returned unchanged.  The result
is truncated to integers by int(). -/
def get_pos (poly : Option Loc) (x_rate y_rate : ℚ) : Except Err (Int × Int) :=
  match poly with
  | none => .error .recog
  | some (.rect p0 p1 p2 p3) =>
      let x : ℚ := ((p0.1 : ℚ) * (1 - x_rate) + (p1.1 : ℚ) * (1 - x_rate) +
        (p2.1 : ℚ) * x_rate + (p3.1 : ℚ) * x_rate) / 2
      let y : ℚ := ((p0.2 : ℚ) * (1 - y_rate) + (p3.2 : ℚ) * (1 - y_rate) +
        (p1.2 : ℚ) * y_rate + (p2.2 : ℚ) * y_rate) / 2
      .ok (pyInt x, pyInt y)
  | some (.scope p0 p1) =>
      let x : ℚ := (p0.1 : ℚ) * (1 - x_rate) + (p1.1 : ℚ) * x_rate
      let y : ℚ := (p0.2 : ℚ) * (1 - y_rate) + (p1.2 : ℚ) * y_rate
      .ok (pyInt x, pyInt y)
  | some (.coord c) => .ok c

/-- BaseSolver.swipe_noinertia (solver.py lines 137-152), as the pure
synthesis of the smooth_swipe arguments: the 4-point waypoint path, the
per-leg duration list [200, dis*duration//100, 200] and the fixed
up_wait of 500.  Python // is floor division (Int.fdiv). -/
def swipe_noinertia (start movement : Int × Int) (duration : Int) :
    List (Int × Int) × List Int × Int :=
  if movement.1 = 0 then
    let dis : Int := |movement.2|
    ([start, (start.1 + 100, start.2), (start.1 + 100, start.2 + movement.2),
      (start.1, start.2 + movement.2)],
     [200, Int.fdiv (dis * duration) 100, 200], 500)
  else
    let dis : Int := |movement.1|
    ([start, (start.1, start.2 + 100), (start.1 + movement.1, start.2 + 100),
      (start.1 + movement.1, start.2)],
     [200, Int.fdiv (dis * duration) 100, 200], 500)

/-- Outcome of one invocation of the abstract transition() body: a normal
return (True = task completed, False = one step done), or one of the three
exception classes distinguished by run(). -/
inductive BodyRes
  | ret : Bool → BodyRes
  | recog
  | strat
  | other
  deriving DecidableEq

/-- Terminal state of BaseSolver.run: completed (transition returned True),
exhausted (retry budget hit zero, loop falls through and run returns),
aborted (StrategyError logged, run returns), excRaised (any other
exception re-raised), fuelOut (embedding fuel marker). -/
inductive RunRes
  | completed
  | exhausted
  | aborted
  | excRaised
  | fuelOut
  deriving DecidableEq

/-- BaseSolver.run (solver.py lines 34-51).  body i is the outcome of the
i-th invocation of transition(); B is config.MAX_RETRYTIME; the result
records the terminal state, the number of body invocations performed, and
the value of retry_times at the moment the loop ended.  On RecognizeError
the budget is decremented and the loop retries; on a normal non-completing
return retry_times is reset to B; on StrategyError the loop returns at
once; any other exception is re-raised. -/
def runLoop (body : Nat → BodyRes) (B : Nat) : Nat → Nat → Nat → RunRes × Nat × Nat
  | 0, r, i => (.fuelOut, i, r)
  | fuel + 1, r, i =>
    if r = 0 then (.exhausted, i, 0)
    else
      match body i with
      | .ret true => (.completed, i + 1, r)
      | .ret false => runLoop body B fuel B (i + 1)
      | .recog => runLoop body B fuel (r - 1) (i + 1)
      | .strat => (.aborted, i + 1, r)
      | .other => (.excRaised, i + 1, r)

/-- BaseSolver.run started with a full budget and no invocations yet. -/
def run (body : Nat → BodyRes) (B fuel : Nat) : RunRes × Nat × Nat :=
  runLoop body B fuel B 0

namespace Scene

/-- Modelled from the spec: the numeric scene codes live in class Scene of
utils/recognize.py, which is not part of the source excerpt.  The spec
fixes only what the solver code uses: codes are distinct, the login family
shares leading band 1 (scene // 100 == 1), loading/confirm/skip sit in the
reserved band 99, and -1 is the undetected sentinel; the concrete values
below are otherwise arbitrary representatives. -/
def INDEX : Int := 201

def NAVIGATION_BAR : Int := 202

def ANNOUNCEMENT : Int := 203

def MATERIEL : Int := 204

def MAIL : Int := 205

def DOUBLE_CONFIRM : Int := 206

def OPERATOR_ONGOING : Int := 401

def OPERATOR_FINISH : Int := 402

def OPERATOR_ELIMINATE_FINISH : Int := 403

def LOGIN_START : Int := 101

def LOGIN_QUICKLY : Int := 102

def LOGIN_MAIN : Int := 103

def LOGIN_INPUT : Int := 104

def LOGIN_ANNOUNCE : Int := 105

def LOGIN_LOADING : Int := 106

def LOADING : Int := 9901

def CONFIRM : Int := 9902

def SKIP : Int := 9903

end Scene

/-- The named UI elements the navigation procedures look up; tap_element
treats nav_button specially (recog.nav_button() instead of recog.find). -/
inductive Elem
  | nav_button
  | nav_index
  | materiel_ico
  | skip
  | double_confirm
  | mail
  | login_awake
  | login_account
  | login_username
  | login_password
  | login_button
  | login_iknow
  deriving DecidableEq

/-- One device action: a tap at a coordinate, a text injection (recorded by
the index of the input() call that produced it), or a back key event. -/
inductive Act
  | tap : Int × Int → Act
  | text : Nat → Act
  | keyBack : Act
  deriving DecidableEq

def isTap (a : Act) : Bool :=
  match a with
  | .tap _ => true
  | _ => false

/-- The observation environment: what the perception collaborator and the
detector module answer at each observation epoch.  One epoch is one
captured screen; recog.update (called from BaseSolver.sleep) moves to the
next epoch, and all queries between two updates read the same capture. -/
structure Env where
  scene : Nat → Int
  find : Nat → Elem → Option ((Int × Int) × (Int × Int))
  navButton : Nat → Option ((Int × Int) × (Int × Int))
  announceClose : Nat → Int × Int
  confirmPos : Nat → Int × Int
  w : Int
  h : Int

/-- The solver's visible state: the current observation epoch, the number
of input() calls performed, and the trace of device actions issued. -/
structure St where
  epoch : Nat
  inputs : Nat
  acts : List Act
  deriving DecidableEq

/-- recog.update after a wait: advance to the next captured screen. -/
def sleepSt (st : St) : St := ⟨st.epoch + 1, st.inputs, st.acts⟩

/-- BaseSolver.sleep: time.sleep then recog.update. -/
def sleepRefresh (st : St) : Except Err Unit × St := (.ok (), sleepSt st)

/-- recog.find / recog.nav_button results are scopes (two corner points). -/
def scopeLoc (s : (Int × Int) × (Int × Int)) : Loc := .scope s.1 s.2

/-- BaseSolver.tap: resolve the location (None raises RecognizeError), issue
the device tap, and when the interval is positive sleep-and-refresh. -/
def tap (poly : Option Loc) (x_rate y_rate interval : ℚ) (st : St) :
    Except Err Unit × St :=
  match get_pos poly x_rate y_rate with
  | .error e => (.error e, st)
  | .ok p =>
    let st1 : St := ⟨st.epoch, st.inputs, st.acts ++ [Act.tap p]⟩
    if 0 < interval then (.ok (), sleepSt st1) else (.ok (), st1)

/-- The element lookup inside BaseSolver.tap_element: nav_button goes
through recog.nav_button(), everything else through find. -/
def elemOf (env : Env) (name : Elem) (ep : Nat) : Option Loc :=
  match name with
  | .nav_button => (env.navButton ep).map scopeLoc
  | n => (env.find ep n).map scopeLoc

/-- BaseSolver.tap_element: look the element up; with detected=True a
missing element returns False without tapping; otherwise tap it (a missing
element then raises RecognizeError inside get_pos) and return True. -/
def tap_element (env : Env) (name : Elem) (x_rate y_rate interval : ℚ)
    (detected : Bool) (st : St) : Except Err Bool × St :=
  let element := elemOf env name st.epoch
  if detected && element.isNone then (.ok false, st)
  else
    match tap element x_rate y_rate interval st with
    | (.ok _, st1) => (.ok true, st1)
    | (.error e, st1) => (.error e, st1)

/-- Drop the Bool of a tap_element call whose result the caller ignores. -/
def toUnit (r : Except Err Bool × St) : Except Err Unit × St :=
  match r with
  | (.ok _, st) => (.ok (), st)
  | (.error e, st) => (.error e, st)

/-- BaseSolver.input: device-tap the resolved field, inject the externally
supplied text (recorded by input-call index), then device-tap (0, 0) to
dismiss the keyboard; no sleep/refresh happens here. -/
def inputText (area : Loc) (st : St) : Except Err Unit × St :=
  match get_pos (some area) (1 / 2) (1 / 2) with
  | .error e => (.error e, st)
  | .ok p =>
    (.ok (), ⟨st.epoch, st.inputs + 1,
      st.acts ++ [Act.tap p, Act.text st.inputs, Act.tap (0, 0)]⟩)

/-- BaseSolver.is_login: not (scene // 100 == 1 or scene // 100 == 99 or
scene == -1); Python // is floor division. -/
def is_login (env : Env) (ep : Nat) : Bool :=
  !(Int.fdiv (env.scene ep) 100 == 1 || Int.fdiv (env.scene ep) 100 == 99
    || env.scene ep == -1)

/-- The scene dispatch inside the try of BaseSolver.login (lines 173-197). -/
def loginBody (env : Env) (st : St) : Except Err Unit × St :=
  let s := env.scene st.epoch
  if s = Scene.LOGIN_START then
    tap (some (.coord (Int.fdiv env.w 2, env.h - 10))) (1 / 2) (1 / 2) 3 st
  else if s = Scene.LOGIN_QUICKLY then
    toUnit (tap_element env .login_awake (1 / 2) (1 / 2) 1 false st)
  else if s = Scene.LOGIN_MAIN then
    toUnit (tap_element env .login_account (1 / 2) (1 / 2) 1 false st)
  else if s = Scene.LOGIN_INPUT then
    let r1 :=
      match env.find st.epoch .login_username with
      | some sc => inputText (scopeLoc sc) st
      | none => (.ok (), st)
    match r1 with
    | (.error e, st1) => (.error e, st1)
    | (.ok _, st1) =>
      let r2 :=
        match env.find st1.epoch .login_password with
        | some sc => inputText (scopeLoc sc) st1
        | none => (.ok (), st1)
      match r2 with
      | (.error e, st2) => (.error e, st2)
      | (.ok _, st2) => toUnit (tap_element env .login_button (1 / 2) (1 / 2) 1 false st2)
  else if s = Scene.LOGIN_ANNOUNCE then
    toUnit (tap_element env .login_iknow (1 / 2) (1 / 2) 1 false st)
  else if s = Scene.LOGIN_LOADING then sleepRefresh st
  else if s = Scene.LOADING then sleepRefresh st
  else if s = Scene.CONFIRM then
    tap (some (.coord (env.confirmPos st.epoch))) (1 / 2) (1 / 2) 1 st
  else (.error .recog, st)

/-- BaseSolver.login (lines 167-208): retry loop over loginBody — on
RecognizeError decrement the budget, sleep and retry; on a normal return
reset the budget to B — followed by the final is_login check that raises
StrategyError when still not logged in.  fuel is the embedding's
termination artifact for this unbounded while loop. -/
def login (env : Env) (B : Nat) : Nat → Nat → St → Except Err Unit × St
  | 0, _, st => (.error .fuelOut, st)
  | fuel + 1, r, st =>
    if r == 0 || is_login env st.epoch then
      (if is_login env st.epoch then (.ok (), st) else (.error .strat, st))
    else
      match loginBody env st with
      | (.ok _, st1) => login env B fuel B st1
      | (.error .recog, st1) => login env B fuel (r - 1) (sleepSt st1)
      | (.error e, st1) => (.error e, st1)

/-- BaseSolver.get_navigation (lines 210-220): while the budget lasts,
return True when the scene is the navigation bar, return False when the
nav toggle cannot be found, otherwise tap the toggle and retry; falling
off the loop returns Python None, modelled as Option.none. -/
def get_navigation (env : Env) : Nat → St → Except Err (Option Bool) × St
  | 0, st => (.ok none, st)
  | r + 1, st =>
    if env.scene st.epoch = Scene.NAVIGATION_BAR then (.ok (some true), st)
    else
      match tap_element env .nav_button (1 / 2) (1 / 2) 1 true st with
      | (.ok true, st1) => get_navigation env r st1
      | (.ok false, st1) => (.ok (some false), st1)
      | (.error e, st1) => (.error e, st1)

/-- The scene dispatch inside the try of BaseSolver.back_to_index (lines
229-257).  In the mail branch, find returning None makes Python subscript
None — a TypeError, i.e. a generic defect (Err.other); otherwise mid_y is
the floor average of the two corner y values and a single tap is issued at
(mid_y, mid_y).  lf is the fuel passed to the nested login loop. -/
def btiBody (env : Env) (B lf : Nat) (st : St) : Except Err Unit × St :=
  match get_navigation env B st with
  | (.error e, st1) => (.error e, st1)
  | (.ok nav, st1) =>
    if nav = some true then toUnit (tap_element env .nav_index (1 / 2) (1 / 2) 1 false st1)
    else
      let s := env.scene st1.epoch
      if s = Scene.ANNOUNCEMENT then
        tap (some (.coord (env.announceClose st1.epoch))) (1 / 2) (1 / 2) 1 st1
      else if s = Scene.MATERIEL then
        toUnit (tap_element env .materiel_ico (1 / 2) (1 / 2) 1 false st1)
      else if Int.fdiv s 100 = 1 then login env B lf B st1
      else if s = Scene.CONFIRM then
        tap (some (.coord (env.confirmPos st1.epoch))) (1 / 2) (1 / 2) 1 st1
      else if s = Scene.LOADING then sleepRefresh st1
      else if s = Scene.SKIP then
        toUnit (tap_element env .skip (1 / 2) (1 / 2) 1 false st1)
      else if s = Scene.OPERATOR_ONGOING then sleepRefresh st1
      else if s = Scene.OPERATOR_FINISH then
        tap (some (.coord (Int.fdiv env.w 2, 10))) (1 / 2) (1 / 2) 1 st1
      else if s = Scene.OPERATOR_ELIMINATE_FINISH then
        tap (some (.coord (Int.fdiv env.w 2, 10))) (1 / 2) (1 / 2) 1 st1
      else if s = Scene.DOUBLE_CONFIRM then
        toUnit (tap_element env .double_confirm (8 / 10) (1 / 2) 1 false st1)
      else if s = Scene.MAIL then
        match env.find st1.epoch .mail with
        | none => (.error .other, st1)
        | some sc =>
          let m := Int.fdiv (sc.1.2 + sc.2.2) 2
          tap (some (.coord (m, m))) (1 / 2) (1 / 2) 1 st1
      else (.error .recog, st1)

/-- The while loop of BaseSolver.back_to_index plus its final scene check:
loop while the budget lasts and the scene is not INDEX; on RecognizeError
decrement the budget, sleep and retry; on a normal return reset the budget
to B; when the loop exits, raise StrategyError unless the scene is INDEX. -/
def btiLoop (env : Env) (B lf : Nat) : Nat → Nat → St → Except Err Unit × St
  | 0, _, st => (.error .fuelOut, st)
  | fuel + 1, r, st =>
    if r == 0 || env.scene st.epoch == Scene.INDEX then
      (if env.scene st.epoch == Scene.INDEX then (.ok (), st) else (.error .strat, st))
    else
      match btiBody env B lf st with
      | (.ok _, st1) => btiLoop env B lf fuel B st1
      | (.error .recog, st1) => btiLoop env B lf fuel (r - 1) (sleepSt st1)
      | (.error e, st1) => (.error e, st1)

/-- BaseSolver.back_to_index (lines 222-268), driven from a fresh state at
epoch 0 with an empty action trace and a full budget B. -/
def back_to_index (env : Env) (B lf fuel : Nat) : Except Err Unit × St :=
  btiLoop env B lf fuel B ⟨0, 0, []⟩

/-- Environment for the C9 witness: the scene is INDEX at every epoch and
nothing else is ever observed. -/
def envIdle : Env :=
  ⟨fun _ => Scene.INDEX, fun _ _ => none, fun _ => none,
   fun _ => (0, 0), fun _ => (0, 0), 1280, 720⟩

/-- Environment for the C8 counterexample and witness: the first capture is
the mail overlay with the mail element at ((10, 20), (30, 40)) and no nav
toggle; every later capture is the home scene. -/
def envMail : Env :=
  ⟨fun e => if e = 0 then Scene.MAIL else Scene.INDEX,
   fun e n => if e = 0 ∧ n = Elem.mail then some ((10, 20), (30, 40)) else none,
   fun _ => none, fun _ => (0, 0), fun _ => (0, 0), 1280, 720⟩

/-- Environment for the C10 witness: the scene is never the navigation bar
and the nav toggle is found on every capture. -/
def envNavStuck : Env :=
  ⟨fun _ => Scene.MAIL, fun _ _ => none, fun _ => some ((0, 0), (2, 2)),
   fun _ => (0, 0), fun _ => (0, 0), 1280, 720⟩

/-- Truncation toward zero moves a rational by strictly less than one. -/
theorem pyInt_dist_lt_one (q : ℚ) : |(pyInt q : ℚ) - q| < 1 := by
  unfold pyInt
  split
  · rw [abs_sub_lt_iff]
    constructor
    · linarith [Int.ceil_lt_add_one q]
    · linarith [Int.le_ceil q]
  · rw [abs_sub_lt_iff]
    constructor
    · linarith [Int.floor_le q]
    · linarith [Int.sub_one_lt_floor q]

/-- With a body that answers RecognizeError at every attempt, the loop
performs exactly r more invocations and exits exhausted. -/
theorem runLoop_recog_exhausts (body : Nat → BodyRes) (B : Nat)
    (hb : ∀ i, body i = .recog) :
    ∀ r fuel i, r < fuel → runLoop body B fuel r i = (.exhausted, i + r, 0) := by
  intro r
  induction r with
  | zero =>
    intro fuel i hlt
    obtain ⟨f, rfl⟩ : ∃ f, fuel = f + 1 := ⟨fuel - 1, by omega⟩
    simp [runLoop]
  | succ r ih =>
    intro fuel i hlt
    obtain ⟨f, rfl⟩ : ∃ f, fuel = f + 1 := ⟨fuel - 1, by omega⟩
    rw [runLoop]
    simp only [Nat.succ_ne_zero, if_false, hb i, Nat.add_sub_cancel]
    rw [ih f (i + 1) (by omega)]
    simp only [Prod.mk.injEq, true_and, and_true]
    omega

/-- With a body that answers RecognizeError at the first n attempts from i
and completes at attempt i + n, the loop completes with n retry units
consumed. -/
theorem runLoop_recog_then_complete (body : Nat → BodyRes) (B : Nat) :
    ∀ n r fuel i, (∀ j, j < n → body (i + j) = .recog) → body (i + n) = .ret true →
      n < r → n < fuel →
      runLoop body B fuel r i = (.completed, i + n + 1, r - n) := by
  intro n
  induction n with
  | zero =>
    intro r fuel i hpre hdone hr hf
    obtain ⟨f, rfl⟩ : ∃ f, fuel = f + 1 := ⟨fuel - 1, by omega⟩
    have hi : body i = .ret true := by simpa using hdone
    rw [runLoop]
    simp [show r ≠ 0 by omega, hi]
  | succ n ih =>
    intro r fuel i hpre hdone hr hf
    obtain ⟨f, rfl⟩ : ∃ f, fuel = f + 1 := ⟨fuel - 1, by omega⟩
    obtain ⟨s, rfl⟩ : ∃ s, r = s + 1 := ⟨r - 1, by omega⟩
    have h0 : body i = .recog := by simpa using hpre 0 (by omega)
    rw [runLoop]
    simp only [Nat.succ_ne_zero, if_false, h0, Nat.add_sub_cancel]
    have hpre2 : ∀ j, j < n → body (i + 1 + j) = .recog := by
      intro j hj
      have := hpre (j + 1) (by omega)
      simpa [Nat.add_assoc, Nat.add_comm 1 j] using this
    have hdone2 : body (i + 1 + n) = .ret true := by
      have : i + 1 + n = i + (n + 1) := by omega
      rw [this]; exact hdone
    rw [ih s f (i + 1) hpre2 hdone2 (by omega) (by omega)]
    simp only [Prod.mk.injEq, true_and]
    omega

/-- C1: if transition() raises StrategyError at the current attempt, run's
loop performs that one invocation and returns aborted immediately: no
retry happens, the retry budget r is left untouched, and the outcome is a
normal return (RunRes.aborted), not a re-raise (RunRes.excRaised); run()
itself is this loop started at full budget with no invocations done. -/
theorem run_strategy_error_aborts (body : Nat → BodyRes) (B fuel r i : Nat)
    (hf : 1 ≤ fuel) (hr : 1 ≤ r) (hb : body i = .strat) :
    runLoop body B fuel r i = (.aborted, i + 1, r) ∧
    run body B fuel = runLoop body B fuel B 0 := by
  obtain ⟨f, rfl⟩ : ∃ f, fuel = f + 1 := ⟨fuel - 1, by omega⟩
  refine ⟨?_, rfl⟩
  rw [runLoop]
  simp [show r ≠ 0 by omega, hb]

theorem run_strategy_error_aborts_witness :
    1 ≤ 1 ∧ 1 ≤ 3 ∧ (fun _ : Nat => BodyRes.strat) 0 = BodyRes.strat ∧
    (runLoop (fun _ : Nat => BodyRes.strat) 3 1 3 0 = (.aborted, 0 + 1, 3) ∧
      run (fun _ : Nat => BodyRes.strat) 3 1 = runLoop (fun _ : Nat => BodyRes.strat) 3 1 3 0) :=
  ⟨Nat.le_refl 1, by omega, rfl,
    run_strategy_error_aborts (fun _ => BodyRes.strat) 3 1 3 0 (Nat.le_refl 1) (by omega) rfl⟩

/-- C2: with budget B at least 1 and a body that raises RecognizeError on
every attempt, run() invokes the body exactly B times, ends with the
budget at zero and reports exhaustion as a normal return — the
RecognizeError is never re-raised past run(). -/
theorem run_recognize_exhaustion (body : Nat → BodyRes) (B fuel : Nat)
    (hB : 1 ≤ B) (hf : B < fuel) (hb : ∀ i, body i = .recog) :
    run body B fuel = (.exhausted, B, 0) := by
  unfold run
  have := runLoop_recog_exhausts body B hb B fuel 0 hf
  simpa using this

theorem run_recognize_exhaustion_witness :
    1 ≤ 3 ∧ 3 < 5 ∧ (∀ i, (fun _ : Nat => BodyRes.recog) i = BodyRes.recog) ∧
    run (fun _ : Nat => BodyRes.recog) 3 5 = (.exhausted, 3, 0) :=
  ⟨by omega, by omega, fun _ => rfl,
    run_recognize_exhaustion (fun _ => BodyRes.recog) 3 5 (by omega) (by omega) (fun _ => rfl)⟩

/-- A body used by the C3 witness: RecognizeError on the first three
attempts, completion on the fourth. -/
def bodyThreeFails : Nat → BodyRes := fun i => if i < 3 then .recog else .ret true

/-- C3: with budget B > N and a body that raises RecognizeError on exactly
its first N attempts and then completes, run() completes after N + 1
invocations with exactly N retry units consumed (B - N budget left); and,
for the reset half of the claim, whenever an attempt returns normally
without completing the task, the loop continues with the budget reset to
its configured maximum B. -/
theorem run_retry_consumption_and_reset (body : Nat → BodyRes) (B N fuel : Nat)
    (hNB : N < B) (hNf : N < fuel)
    (hpre : ∀ j, j < N → body j = .recog) (hdone : body N = .ret true) :
    run body B fuel = (.completed, N + 1, B - N) ∧
    (∀ r i f2, 1 ≤ r → 1 ≤ f2 → body i = .ret false →
      runLoop body B f2 r i = runLoop body B (f2 - 1) B (i + 1)) := by
  constructor
  · unfold run
    have := runLoop_recog_then_complete body B N B fuel 0
      (by intro j hj; simpa using hpre j hj) (by simpa using hdone) hNB hNf
    simpa using this
  · intro r i f2 hr hf2 hb
    obtain ⟨g, rfl⟩ : ∃ g, f2 = g + 1 := ⟨f2 - 1, by omega⟩
    rw [runLoop]
    simp [show r ≠ 0 by omega, hb]

theorem run_retry_consumption_and_reset_witness :
    3 < 5 ∧ 3 < 9 ∧ (∀ j, j < 3 → bodyThreeFails j = BodyRes.recog) ∧
    bodyThreeFails 3 = BodyRes.ret true ∧
    (run bodyThreeFails 5 9 = (.completed, 3 + 1, 5 - 3) ∧
      (∀ r i f2, 1 ≤ r → 1 ≤ f2 → bodyThreeFails i = BodyRes.ret false →
        runLoop bodyThreeFails 5 f2 r i = runLoop bodyThreeFails 5 (f2 - 1) 5 (i + 1))) :=
  ⟨by omega, by omega,
    by intro j hj; interval_cases j <;> rfl, rfl,
    run_retry_consumption_and_reset bodyThreeFails 5 3 9 (by omega) (by omega)
      (by intro j hj; interval_cases j <;> rfl) rfl⟩

/-- C4: get_pos applied to a None location raises RecognizeError, for every
pair of anchor weights. -/
theorem get_pos_none_raises (x_rate y_rate : ℚ) :
    get_pos none x_rate y_rate = .error .recog := rfl

/-- C5: on a Scope, get_pos returns the per-axis linear interpolation
x = p0.x*(1-x_rate) + p1.x*x_rate, y = p0.y*(1-y_rate) + p1.y*y_rate,
truncated to integers; and at x_rate = y_rate = 0.5 the interpolated point
is exactly the midpoint of the two corners (its truncation is returned). -/
theorem get_pos_scope_interpolation (p0 p1 : Int × Int) (x_rate y_rate : ℚ)
    (hx0 : 0 ≤ x_rate) (hx1 : x_rate ≤ 1) (hy0 : 0 ≤ y_rate) (hy1 : y_rate ≤ 1) :
    get_pos (some (.scope p0 p1)) x_rate y_rate =
      .ok (pyInt ((p0.1 : ℚ) * (1 - x_rate) + (p1.1 : ℚ) * x_rate),
        pyInt ((p0.2 : ℚ) * (1 - y_rate) + (p1.2 : ℚ) * y_rate)) ∧
    get_pos (some (.scope p0 p1)) (1 / 2) (1 / 2) =
      .ok (pyInt (((p0.1 : ℚ) + (p1.1 : ℚ)) / 2),
        pyInt (((p0.2 : ℚ) + (p1.2 : ℚ)) / 2)) := by
  constructor
  · rfl
  · show Except.ok (pyInt ((p0.1 : ℚ) * (1 - 1 / 2) + (p1.1 : ℚ) * (1 / 2)),
      pyInt ((p0.2 : ℚ) * (1 - 1 / 2) + (p1.2 : ℚ) * (1 / 2))) = _
    have hx : (p0.1 : ℚ) * (1 - 1 / 2) + (p1.1 : ℚ) * (1 / 2) =
        ((p0.1 : ℚ) + (p1.1 : ℚ)) / 2 := by ring
    have hy : (p0.2 : ℚ) * (1 - 1 / 2) + (p1.2 : ℚ) * (1 / 2) =
        ((p0.2 : ℚ) + (p1.2 : ℚ)) / 2 := by ring
    rw [hx, hy]

theorem get_pos_scope_interpolation_witness :
    0 ≤ (1 / 2 : ℚ) ∧ (1 / 2 : ℚ) ≤ 1 ∧
    (get_pos (some (.scope (10, 20) (30, 40))) (1 / 2) (1 / 2) =
      .ok (pyInt (((10 : Int) : ℚ) * (1 - 1 / 2) + ((30 : Int) : ℚ) * (1 / 2)),
        pyInt (((20 : Int) : ℚ) * (1 - 1 / 2) + ((40 : Int) : ℚ) * (1 / 2))) ∧
     get_pos (some (.scope (10, 20) (30, 40))) (1 / 2) (1 / 2) =
      .ok (pyInt ((((10 : Int) : ℚ) + ((30 : Int) : ℚ)) / 2),
        pyInt ((((20 : Int) : ℚ) + ((40 : Int) : ℚ)) / 2))) :=
  ⟨by norm_num, by norm_num,
    get_pos_scope_interpolation (10, 20) (30, 40) (1 / 2) (1 / 2)
      (by norm_num) (by norm_num) (by norm_num) (by norm_num)⟩

/-- C6: on a four-point axis-aligned rectangle (left side x0, right side
x1, top y0, bottom y1, in the winding the source's pairing implies),
get_pos at weights (0.5, 0.5) returns the truncation of the exact centroid
((x0+x1)/2, (y0+y1)/2), which is within one pixel of the centroid on each
axis. -/
theorem get_pos_rectangle_centroid (x0 y0 x1 y1 : Int) :
    get_pos (some (.rect (x0, y0) (x0, y1) (x1, y1) (x1, y0))) (1 / 2) (1 / 2) =
      .ok (pyInt (((x0 : ℚ) + (x1 : ℚ)) / 2), pyInt (((y0 : ℚ) + (y1 : ℚ)) / 2)) ∧
    |(pyInt (((x0 : ℚ) + (x1 : ℚ)) / 2) : ℚ) - ((x0 : ℚ) + (x1 : ℚ)) / 2| < 1 ∧
    |(pyInt (((y0 : ℚ) + (y1 : ℚ)) / 2) : ℚ) - ((y0 : ℚ) + (y1 : ℚ)) / 2| < 1 := by
  refine ⟨?_, pyInt_dist_lt_one _, pyInt_dist_lt_one _⟩
  show Except.ok
      (pyInt (((x0 : ℚ) * (1 - 1 / 2) + (x0 : ℚ) * (1 - 1 / 2) +
        (x1 : ℚ) * (1 / 2) + (x1 : ℚ) * (1 / 2)) / 2),
       pyInt (((y0 : ℚ) * (1 - 1 / 2) + (y0 : ℚ) * (1 - 1 / 2) +
        (y1 : ℚ) * (1 / 2) + (y1 : ℚ) * (1 / 2)) / 2)) = _
  have hx : ((x0 : ℚ) * (1 - 1 / 2) + (x0 : ℚ) * (1 - 1 / 2) +
      (x1 : ℚ) * (1 / 2) + (x1 : ℚ) * (1 / 2)) / 2 = ((x0 : ℚ) + (x1 : ℚ)) / 2 := by ring
  have hy : ((y0 : ℚ) * (1 - 1 / 2) + (y0 : ℚ) * (1 - 1 / 2) +
      (y1 : ℚ) * (1 / 2) + (y1 : ℚ) * (1 / 2)) / 2 = ((y0 : ℚ) + (y1 : ℚ)) / 2 := by ring
  rw [hx, hy]

/-- C7 counterexample: for the purely vertical movement (0, 200) with
duration 100, the synthesized middle-leg duration is 200*100//100 = 200,
not 400 as the claim states; the full synthesis at this input is shown. -/
theorem swipe_noinertia_middle_leg_counterexample :
    swipe_noinertia (0, 0) (0, 200) 100 =
      ([(0, 0), (100, 0), (100, 200), (0, 200)], [200, 200, 200], 500) ∧
    (swipe_noinertia (0, 0) (0, 200) 100).2.1 ≠ [200, 400, 200] := by
  constructor
  · decide
  · decide

/-- C7 (amended): swipe_noinertia on a purely vertical movement of
magnitude 200 with duration 100 synthesizes a 4-point waypoint path whose
two perpendicular offset legs displace by a fixed 100 units off the
movement axis and last 200 time-units each, whose middle leg lasts
duration*distance/100 = 200 time-units (not 400), and whose fixed settle
delay before the final release is 500. -/
theorem swipe_noinertia_durations (sx sy my : Int) (h : |my| = 200) :
    swipe_noinertia (sx, sy) (0, my) 100 =
      ([(sx, sy), (sx + 100, sy), (sx + 100, sy + my), (sx, sy + my)],
       [200, 200, 200], 500) := by
  unfold swipe_noinertia
  simp only [if_pos rfl, h]
  norm_num
  decide

theorem swipe_noinertia_durations_witness :
    |(200 : Int)| = 200 ∧
    swipe_noinertia (5, 7) (0, 200) 100 =
      ([(5, 7), (5 + 100, 7), (5 + 100, 7 + 200), (5, 7 + 200)],
       [200, 200, 200], 500) :=
  ⟨by decide, swipe_noinertia_durations 5 7 200 (by decide)⟩

/-- Issuing a tap on a present two-point scope always succeeds: one tap
action is appended and the default positive interval forces a refresh. -/
theorem tap_scope_step (p q : Int × Int) (st : St) :
    tap (some (.scope p q)) (1 / 2) (1 / 2) 1 st =
      (.ok (), ⟨st.epoch + 1, st.inputs, st.acts ++ [Act.tap
        (pyInt ((p.1 : ℚ) * (1 - 1 / 2) + (q.1 : ℚ) * (1 / 2)),
         pyInt ((p.2 : ℚ) * (1 - 1 / 2) + (q.2 : ℚ) * (1 / 2)))]⟩) := by
  unfold tap get_pos
  norm_num [sleepSt]

/-- C9: if the scene already equals the home/index scene when back_to_index
is invoked, the while loop is never entered and the final check passes:
zero device actions are issued (empty trace, epoch untouched) and the
procedure returns successfully instead of raising. -/
theorem back_to_index_idempotent (env : Env) (B lf fuel : Nat)
    (hf : 1 ≤ fuel) (h : env.scene 0 = Scene.INDEX) :
    back_to_index env B lf fuel = (.ok (), ⟨0, 0, []⟩) := by
  obtain ⟨f, rfl⟩ : ∃ f, fuel = f + 1 := ⟨fuel - 1, by omega⟩
  unfold back_to_index
  rw [btiLoop]
  simp [h]

theorem back_to_index_idempotent_witness :
    1 ≤ 1 ∧ envIdle.scene 0 = Scene.INDEX ∧
    back_to_index envIdle 3 1 1 = (.ok (), ⟨0, 0, []⟩) :=
  ⟨Nat.le_refl 1, rfl,
    back_to_index_idempotent envIdle 3 1 1 (Nat.le_refl 1) rfl⟩

/-- C8 counterexample: started in the mail-overlay scene (concrete mail
region ((10, 20), (30, 40)), so mid_y = (20 + 40) // 2 = 30), the
procedure issues exactly ONE tap, at (30, 30) — the count of tap actions
in its trace is 1, not the 2 the claim requires. -/
theorem back_to_index_mail_counterexample :
    back_to_index envMail 3 1 2 = (.ok (), ⟨1, 0, [Act.tap (30, 30)]⟩) ∧
    (back_to_index envMail 3 1 2).2.acts.countP isTap ≠ 2 := by
  constructor
  · rfl
  · decide

/-- C8 (amended): when the current scene is the mail overlay, the procedure
resolves the mail region, computes the vertical midpoint mid_y of its two
corner y-coordinates, and taps its vertical midpoint ONCE — not twice —
using the same coordinate value mid_y for both the x and y axes of the tap
point. -/
theorem back_to_index_mail_single_tap (env : Env) (B lf f : Nat)
    (x0 y0 x1 y1 : Int)
    (h0 : env.scene 0 = Scene.MAIL)
    (h1 : env.navButton 0 = none)
    (h2 : env.find 0 Elem.mail = some ((x0, y0), (x1, y1)))
    (h3 : env.scene 1 = Scene.INDEX) :
    back_to_index env (B + 1) lf (f + 2) =
      (.ok (), ⟨1, 0, [Act.tap (Int.fdiv (y0 + y1) 2, Int.fdiv (y0 + y1) 2)]⟩) := by
  have hnav : get_navigation env (B + 1) ⟨0, 0, []⟩ = (.ok (some false), ⟨0, 0, []⟩) := by
    rw [get_navigation]
    simp +decide [h0, tap_element, elemOf, h1, Scene.MAIL, Scene.NAVIGATION_BAR]
  have hbody : btiBody env (B + 1) lf ⟨0, 0, []⟩ =
      (.ok (), ⟨1, 0, [Act.tap (Int.fdiv (y0 + y1) 2, Int.fdiv (y0 + y1) 2)]⟩) := by
    rw [btiBody, hnav]
    simp +decide [h0, h2, tap, get_pos, sleepSt, Scene.MAIL, Scene.ANNOUNCEMENT,
      Scene.MATERIEL, Scene.CONFIRM, Scene.LOADING, Scene.SKIP, Scene.OPERATOR_ONGOING,
      Scene.OPERATOR_FINISH, Scene.OPERATOR_ELIMINATE_FINISH, Scene.DOUBLE_CONFIRM]
  show btiLoop env (B + 1) lf (f + 1 + 1) (B + 1) ⟨0, 0, []⟩ = _
  rw [btiLoop, hbody]
  simp +decide [h0, h3, btiLoop, Scene.MAIL, Scene.INDEX]

theorem back_to_index_mail_single_tap_witness :
    envMail.scene 0 = Scene.MAIL ∧ envMail.navButton 0 = none ∧
    envMail.find 0 Elem.mail = some ((10, 20), (30, 40)) ∧
    envMail.scene 1 = Scene.INDEX ∧
    back_to_index envMail (2 + 1) 1 (0 + 2) =
      (.ok (), ⟨1, 0, [Act.tap (Int.fdiv (20 + 40) 2, Int.fdiv (20 + 40) 2)]⟩) :=
  ⟨rfl, rfl, rfl, rfl,
    back_to_index_mail_single_tap envMail 2 1 0 10 20 30 40 rfl rfl rfl rfl⟩

/-- C10: when the scene never equals the navigation-bar scene but the nav
toggle element keeps being found (and tapped, once per attempt), the loop
runs its budget down and falls off the while: get_navigation returns
Python None — neither True nor False. -/
theorem get_navigation_budget_exhausted_none (env : Env) (r : Nat) (st : St)
    (hs : ∀ e, env.scene e ≠ Scene.NAVIGATION_BAR)
    (hn : ∀ e, (env.navButton e).isSome = true) :
    (get_navigation env r st).1 = .ok none ∧
    (get_navigation env r st).2.acts.length = st.acts.length + r := by
  induction r generalizing st with
  | zero => simp [get_navigation]
  | succ r ih =>
    obtain ⟨nb, hnb⟩ := Option.isSome_iff_exists.mp (hn st.epoch)
    have he : elemOf env .nav_button st.epoch = some (scopeLoc nb) := by
      simp [elemOf, hnb]
    have hstep : get_navigation env (r + 1) st = get_navigation env r
        ⟨st.epoch + 1, st.inputs, st.acts ++ [Act.tap
          (pyInt ((nb.1.1 : ℚ) * (1 - 1 / 2) + (nb.2.1 : ℚ) * (1 / 2)),
           pyInt ((nb.1.2 : ℚ) * (1 - 1 / 2) + (nb.2.2 : ℚ) * (1 / 2)))]⟩ := by
      rw [get_navigation, if_neg (hs st.epoch)]
      simp only [tap_element, he, Option.isNone_some, Bool.and_false, Bool.false_eq_true,
        if_false, scopeLoc, tap_scope_step]
    rw [hstep]
    obtain ⟨ih1, ih2⟩ := ih ⟨st.epoch + 1, st.inputs, st.acts ++ [Act.tap
      (pyInt ((nb.1.1 : ℚ) * (1 - 1 / 2) + (nb.2.1 : ℚ) * (1 / 2)),
       pyInt ((nb.1.2 : ℚ) * (1 - 1 / 2) + (nb.2.2 : ℚ) * (1 / 2)))]⟩
    refine ⟨ih1, ?_⟩
    rw [ih2]
    simp
    omega

theorem get_navigation_budget_exhausted_none_witness :
    (∀ e, envNavStuck.scene e ≠ Scene.NAVIGATION_BAR) ∧
    (∀ e, (envNavStuck.navButton e).isSome = true) ∧
    ((get_navigation envNavStuck 3 ⟨0, 0, []⟩).1 = .ok none ∧
     (get_navigation envNavStuck 3 ⟨0, 0, []⟩).2.acts.length =
       (⟨0, 0, []⟩ : St).acts.length + 3) :=
  ⟨fun _ => by show Scene.MAIL ≠ Scene.NAVIGATION_BAR; decide, fun _ => rfl,
    get_navigation_budget_exhausted_none envNavStuck 3 ⟨0, 0, []⟩
      (fun _ => by show Scene.MAIL ≠ Scene.NAVIGATION_BAR; decide) (fun _ => rfl)⟩
